import Mathlib

/-!
Verification of the seat-reservation subsystem of the webinar-booking
repository (src/webinars).  The TypeScript source is shallow-embedded:

* `Webinar` mirrors `WebinarProps` of `src/webinars/entities/webinar.entity.ts`
  (`seats` is a TypeScript number used only integrally, embedded as `Int`;
  dates are embedded as integral timestamps, unused by the booking path);
* `Participation` mirrors the participation entity's props
  (`{ userId, webinarId }`, the shape asserted by the test suite);
* `SysState` bundles the four injected collaborators as their in-memory
  adapters implement them: `InMemoryWebinarRepository.database`,
  the test file's `InMemoryParticipationRepository` (filter / push),
  its `InMemoryUserRepository` (find by id) and `InMemoryMailer`
  (a `sentEmails` log appended to by `send`);
* `BookSeat.execute` is the use case `BookSeat.execute` of the source,
  written as a pure state-passing function returning `Except` where the
  source throws.
-/

/-- User entity props (`src/users/entities/user.entity.ts` as used by the
booking flow: id, email, password). -/
structure User where
  id : String
  email : String
  password : String
deriving DecidableEq, Repr

/-- Participation entity props: a (registrant, event) pair, matching the
source constructor `new Participation({ userId, webinarId })`. -/
structure Participation where
  userId : String
  webinarId : String
deriving DecidableEq, Repr

/-- Webinar entity props (`WebinarProps`).  `participants` is the optional
cached list of participant ids; dates are integral timestamps. -/
structure Webinar where
  id : String
  organizerId : String
  title : String
  startDate : Int
  endDate : Int
  seats : Int
  participants : Option (List String) := none
deriving DecidableEq, Repr

/-- The `participants || []` default used throughout the entity. -/
def Webinar.participantsList (w : Webinar) : List String :=
  w.participants.getD []

/-- `Webinar.hasAvailableSeats`: cached participant count strictly below
`seats`. -/
def Webinar.hasAvailableSeats (w : Webinar) : Bool :=
  decide ((w.participantsList.length : Int) < w.seats)

/-- `Webinar.isParticipant`: membership in the cached participants list. -/
def Webinar.isParticipant (w : Webinar) (userId : String) : Bool :=
  w.participantsList.contains userId

/-- `Webinar.isOrganizer`: identity comparison with the organizer id. -/
def Webinar.isOrganizer (w : Webinar) (userId : String) : Bool :=
  w.organizerId == userId

/-- `Webinar.addParticipant`: copy the cached list, push `userId`, and
`update` the props bag with the new list (`Entity.update` merges the given
fields into the props, per the spec's description of entity update as
props-bag replacement; the base class is outside the booking sources). -/
def Webinar.addParticipant (w : Webinar) (userId : String) : Webinar :=
  { w with participants := some (w.participantsList ++ [userId]) }

/-- `Webinar.getRemainingSeats`: `seats - participants.length` (a TypeScript
number subtraction, hence `Int`: it may go negative). -/
def Webinar.getRemainingSeats (w : Webinar) : Int :=
  w.seats - w.participantsList.length

/-- Errors thrown by `BookSeat.execute`: the bare
`new Error('Webinar not found')` and the two dedicated exception classes
`NoSeatsAvailableException` (message "No seats available for this webinar")
and `AlreadyParticipatingException` (message "User is already participating
in this webinar"). -/
inductive JsError where
  | genericError (message : String)
  | noSeatsAvailableException
  | alreadyParticipatingException
deriving DecidableEq, Repr

/-- Email record accepted by the mailer port (`IMailer.send`).  The source
field `to` is named `toAddr` here (`to` is reserved in Lean). -/
structure Email where
  toAddr : String
  subject : String
  body : String
deriving DecidableEq, Repr

/-- Combined state of the four injected collaborators, each as its
in-memory adapter stores it. -/
structure SysState where
  webinars : List Webinar
  participations : List Participation
  users : List User
  sentEmails : List Email
deriving DecidableEq, Repr

/-- `InMemoryWebinarRepository.findById`: first webinar whose id matches,
else null. -/
def findWebinarById (database : List Webinar) (id : String) : Option Webinar :=
  database.find? (fun w => w.id == id)

/-- `InMemoryParticipationRepository.findByWebinarId`: all participations of
the given webinar. -/
def findByWebinarId (participations : List Participation) (webinarId : String) :
    List Participation :=
  participations.filter (fun p => p.webinarId == webinarId)

/-- `InMemoryUserRepository.findById`: first user whose id matches, else
null. -/
def findUserById (users : List User) (id : String) : Option User :=
  users.find? (fun u => u.id == id)

/-- The organizer notification built in `BookSeat.execute`, where
`countBefore` is the participation count read before the new registration
was saved (`remainingSeats = seats - participations.length - 1`). -/
def notificationEmail (organizer : User) (webinar : Webinar) (countBefore : Nat) :
    Email :=
  { toAddr := organizer.email
    subject := "New participant in your webinar: " ++ webinar.title
    body := "A new participant has registered for your webinar \"" ++
      webinar.title ++ "\". There are now " ++
      toString (webinar.seats - countBefore - 1) ++ " seats remaining." }

/-- `BookSeat.execute({ webinarId, user })`, embedded as a pure function:
load the webinar (absent: throw `Error('Webinar not found')`), load the
current participations, reject a duplicate registrant
(`AlreadyParticipatingException`), reject a full webinar
(`NoSeatsAvailableException`), save the new participation, then look up the
organizer and — only if found — send the notification email. -/
def BookSeat.execute (s : SysState) (webinarId : String) (user : User) :
    Except JsError Unit × SysState :=
  match findWebinarById s.webinars webinarId with
  | none => (Except.error (JsError.genericError "Webinar not found"), s)
  | some webinar =>
    let participations := findByWebinarId s.participations webinarId
    if participations.any (fun p => p.userId == user.id) then
      (Except.error JsError.alreadyParticipatingException, s)
    else if (participations.length : Int) ≥ webinar.seats then
      (Except.error JsError.noSeatsAvailableException, s)
    else
      let s1 : SysState :=
        { s with participations := s.participations ++ [⟨user.id, webinarId⟩] }
      match findUserById s1.users webinar.organizerId with
      | none => (Except.ok (), s1)
      | some organizer =>
        (Except.ok (),
         { s1 with sentEmails :=
            s1.sentEmails ++ [notificationEmail organizer webinar participations.length] })

/-- Number of committed registrations the store holds for one event. -/
def countFor (s : SysState) (webinarId : String) : Nat :=
  (findByWebinarId s.participations webinarId).length

/-- Number of committed registrations for one (event, registrant) pair. -/
def countPair (s : SysState) (webinarId userId : String) : Nat :=
  ((findByWebinarId s.participations webinarId).filter
    (fun p => p.userId == userId)).length

/-- Sequential composition: run `BookSeat.execute` once per user, in list
order, threading the state. -/
def runSeq (webinarId : String) (users : List User) (s : SysState) : SysState :=
  users.foldl (fun st u => (BookSeat.execute st webinarId u).snd) s

/-- Repeat the same booking request `n` times sequentially. -/
def iterateBook (webinarId : String) (u : User) : Nat → SysState → SysState
  | 0, s => s
  | n + 1, s => iterateBook webinarId u n (BookSeat.execute s webinarId u).snd

/-! Concrete fixtures, mirroring the repository's test suite. -/

/-- The test suite's registrant `user-1`. -/
def demoUser : User :=
  { id := "user-1", email := "user@test.com", password := "password123" }

/-- The test suite's organizer. -/
def demoOrganizer : User :=
  { id := "organizer-id", email := "organizer@test.com", password := "password123" }

/-- The test suite's two-seat webinar. -/
def demoWebinar : Webinar :=
  { id := "webinar-1", organizerId := "organizer-id", title := "Test Webinar",
    startDate := 0, endDate := 0, seats := 2 }

/-- State with empty stores. -/
def emptyState : SysState :=
  { webinars := [], participations := [], users := [], sentEmails := [] }

/-- The test suite's happy-path starting state. -/
def demoState : SysState :=
  { webinars := [demoWebinar], participations := [], users := [demoOrganizer],
    sentEmails := [] }

/-- `demoState` with `user-1` already registered. -/
def demoStateRegistered : SysState :=
  { demoState with participations := [⟨"user-1", "webinar-1"⟩] }

/-- Three pairwise-distinct registrants for the capacity scenario. -/
def demoUsers : List User :=
  [demoUser,
   { id := "user-2", email := "user2@test.com", password := "password123" },
   { id := "user-3", email := "user3@test.com", password := "password123" }]


/-!
Interleaving model for concurrent invocations.  A JavaScript runtime runs
each `async` invocation of `BookSeat.execute` as a chain of synchronous
segments separated by its `await` points; between two segments of one
invocation, segments of another may run against the same in-memory stores.
`BookingPC` is the program counter of one in-flight invocation, cut exactly
at the five `await`s of the source (`findById`, `findByWebinarId`, `save`,
`userRepository.findById`, `mailer.send`); the constructor arguments are the
local variables that survive the suspension — in particular `resumeList`
carries the participation snapshot the checks will read, and `resumeSave`
the stale `participations.length` used for the notification.
-/

/-- Program counter of one suspended `BookSeat.execute` invocation. -/
inductive BookingPC where
  | ready
  | resumeFind (found : Option Webinar)
  | resumeList (webinar : Webinar) (snapshot : List Participation)
  | resumeSave (webinar : Webinar) (countBefore : Nat)
  | resumeOrganizer (webinar : Webinar) (countBefore : Nat) (found : Option User)
  | resumeSend
  | finishedOk
  | finishedError (e : JsError)
deriving DecidableEq, Repr

/-- One in-flight invocation: its request and where it is suspended. -/
structure BookingTask where
  webinarId : String
  user : User
  pc : BookingPC
deriving DecidableEq, Repr

/-- Run the next synchronous segment of one invocation against the shared
stores: each branch is the code of `BookSeat.execute` between two `await`
points. -/
def bookingStep (shared : SysState) (t : BookingTask) : BookingTask × SysState :=
  match t.pc with
  | .ready =>
    ({ t with pc := .resumeFind (findWebinarById shared.webinars t.webinarId) }, shared)
  | .resumeFind none =>
    ({ t with pc := .finishedError (.genericError "Webinar not found") }, shared)
  | .resumeFind (some w) =>
    ({ t with pc := .resumeList w (findByWebinarId shared.participations t.webinarId) },
     shared)
  | .resumeList w snapshot =>
    if snapshot.any (fun p => p.userId == t.user.id) then
      ({ t with pc := .finishedError .alreadyParticipatingException }, shared)
    else if (snapshot.length : Int) ≥ w.seats then
      ({ t with pc := .finishedError .noSeatsAvailableException }, shared)
    else
      ({ t with pc := .resumeSave w snapshot.length },
       { shared with participations := shared.participations ++ [⟨t.user.id, t.webinarId⟩] })
  | .resumeSave w countBefore =>
    ({ t with pc := .resumeOrganizer w countBefore (findUserById shared.users w.organizerId) },
     shared)
  | .resumeOrganizer _ _ none => ({ t with pc := .finishedOk }, shared)
  | .resumeOrganizer w countBefore (some org) =>
    ({ t with pc := .resumeSend },
     { shared with sentEmails := shared.sentEmails ++ [notificationEmail org w countBefore] })
  | .resumeSend => ({ t with pc := .finishedOk }, shared)
  | .finishedOk => (t, shared)
  | .finishedError _ => (t, shared)

/-- Run one invocation alone for `n` segments. -/
def soloSteps : Nat → SysState → BookingTask → BookingTask × SysState
  | 0, s, t => (t, s)
  | n + 1, s, t =>
    let r := bookingStep s t
    soloSteps n r.snd r.fst

/-- Two concurrent invocations over shared stores. -/
structure RaceConfig where
  shared : SysState
  taskA : BookingTask
  taskB : BookingTask
deriving DecidableEq, Repr

/-- Scheduler step: resume task A (`true`) or task B (`false`). -/
def raceStep (c : RaceConfig) (pickA : Bool) : RaceConfig :=
  if pickA then
    let r := bookingStep c.shared c.taskA
    { c with taskA := r.fst, shared := r.snd }
  else
    let r := bookingStep c.shared c.taskB
    { c with taskB := r.fst, shared := r.snd }

/-- Run a whole schedule of scheduler picks. -/
def runRace (c : RaceConfig) (schedule : List Bool) : RaceConfig :=
  schedule.foldl raceStep c

/-- A one-seat webinar, the smallest capacity the race can violate. -/
def oneSeatWebinar : Webinar :=
  { id := "webinar-1", organizerId := "organizer-id", title := "Test Webinar",
    startDate := 0, endDate := 0, seats := 1 }

/-- A second, distinct registrant. -/
def secondUser : User :=
  { id := "user-2", email := "user2@test.com", password := "password123" }

/-- Both registrants book the one-seat webinar concurrently; the user store
is empty so each invocation ends right after its organizer lookup. -/
def raceInit : RaceConfig :=
  { shared := { webinars := [oneSeatWebinar], participations := [], users := [],
                sentEmails := [] }
    taskA := { webinarId := "webinar-1", user := demoUser, pc := .ready }
    taskB := { webinarId := "webinar-1", user := secondUser, pc := .ready } }

/-- The alternating schedule: both tasks read the empty participation list
before either saves — the interleaving the event loop produces when both
promises are started together. -/
def raceSchedule : List Bool :=
  [true, false, true, false, true, false, true, false, true, false]

/-! Characterization of the four control-flow paths of `BookSeat.execute`. -/

/-- Missing event: the generic "Webinar not found" error is thrown and the
state is returned untouched. -/
theorem execute_not_found (s : SysState) (eid : String) (u : User)
    (h : findWebinarById s.webinars eid = none) :
    BookSeat.execute s eid u = (Except.error (JsError.genericError "Webinar not found"), s) := by
  simp [BookSeat.execute, h]

/-- Duplicate registrant: `AlreadyParticipatingException`, state untouched. -/
theorem execute_duplicate (s : SysState) (eid : String) (u : User) (w : Webinar)
    (hw : findWebinarById s.webinars eid = some w)
    (hd : (findByWebinarId s.participations eid).any (fun p => p.userId == u.id) = true) :
    BookSeat.execute s eid u = (Except.error JsError.alreadyParticipatingException, s) := by
  simp [BookSeat.execute, hw, hd]

/-- Full event: `NoSeatsAvailableException`, state untouched. -/
theorem execute_full (s : SysState) (eid : String) (u : User) (w : Webinar)
    (hw : findWebinarById s.webinars eid = some w)
    (hd : (findByWebinarId s.participations eid).any (fun p => p.userId == u.id) = false)
    (hfull : ((findByWebinarId s.participations eid).length : Int) ≥ w.seats) :
    BookSeat.execute s eid u = (Except.error JsError.noSeatsAvailableException, s) := by
  simp [BookSeat.execute, hw, hd, hfull]

/-- Successful path: ok result, exactly the new participation appended,
webinars and users untouched. -/
theorem execute_success_parts (s : SysState) (eid : String) (u : User) (w : Webinar)
    (hw : findWebinarById s.webinars eid = some w)
    (hd : (findByWebinarId s.participations eid).any (fun p => p.userId == u.id) = false)
    (hcap : ((findByWebinarId s.participations eid).length : Int) < w.seats) :
    (BookSeat.execute s eid u).fst = Except.ok () ∧
    (BookSeat.execute s eid u).snd.participations = s.participations ++ [⟨u.id, eid⟩] ∧
    (BookSeat.execute s eid u).snd.webinars = s.webinars ∧
    (BookSeat.execute s eid u).snd.users = s.users := by
  have hno : ¬ ((findByWebinarId s.participations eid).length : Int) ≥ w.seats := not_le.mpr hcap
  cases horg : findUserById s.users w.organizerId with
  | none => simp [BookSeat.execute, hw, hd, hno, horg]
  | some org => simp [BookSeat.execute, hw, hd, hno, horg]

/-- Successful path with an unresolved organizer: no email is recorded. -/
theorem execute_success_email_none (s : SysState) (eid : String) (u : User) (w : Webinar)
    (hw : findWebinarById s.webinars eid = some w)
    (hd : (findByWebinarId s.participations eid).any (fun p => p.userId == u.id) = false)
    (hcap : ((findByWebinarId s.participations eid).length : Int) < w.seats)
    (horg : findUserById s.users w.organizerId = none) :
    (BookSeat.execute s eid u).snd.sentEmails = s.sentEmails := by
  have hno : ¬ ((findByWebinarId s.participations eid).length : Int) ≥ w.seats := not_le.mpr hcap
  simp [BookSeat.execute, hw, hd, hno, horg]

/-- Successful path with a resolved organizer: exactly one email is
recorded, built from the pre-registration participation count. -/
theorem execute_success_email_some (s : SysState) (eid : String) (u : User) (w : Webinar)
    (org : User)
    (hw : findWebinarById s.webinars eid = some w)
    (hd : (findByWebinarId s.participations eid).any (fun p => p.userId == u.id) = false)
    (hcap : ((findByWebinarId s.participations eid).length : Int) < w.seats)
    (horg : findUserById s.users w.organizerId = some org) :
    (BookSeat.execute s eid u).snd.sentEmails =
      s.sentEmails ++ [notificationEmail org w (findByWebinarId s.participations eid).length] := by
  have hno : ¬ ((findByWebinarId s.participations eid).length : Int) ≥ w.seats := not_le.mpr hcap
  simp [BookSeat.execute, hw, hd, hno, horg]

/-- The webinar store and the user store are never written by the use
case, on any path. -/
theorem execute_frame (s : SysState) (eid : String) (u : User) :
    (BookSeat.execute s eid u).snd.webinars = s.webinars ∧
    (BookSeat.execute s eid u).snd.users = s.users := by
  unfold BookSeat.execute
  cases hw : findWebinarById s.webinars eid with
  | none => simp
  | some w =>
    simp only []
    split
    · simp
    · split
      · simp
      · cases horg : findUserById s.users w.organizerId <;> simp [horg]

/-- Any thrown error leaves the whole state untouched. -/
theorem execute_failure_frame (s : SysState) (eid : String) (u : User) (e : JsError)
    (h : (BookSeat.execute s eid u).fst = Except.error e) :
    (BookSeat.execute s eid u).snd = s := by
  cases hw : findWebinarById s.webinars eid with
  | none => rw [execute_not_found s eid u hw]
  | some w =>
    cases hd : (findByWebinarId s.participations eid).any (fun p => p.userId == u.id) with
    | true => rw [execute_duplicate s eid u w hw hd]
    | false =>
      by_cases hcap : ((findByWebinarId s.participations eid).length : Int) ≥ w.seats
      · rw [execute_full s eid u w hw hd hcap]
      · have hok := (execute_success_parts s eid u w hw hd (lt_of_not_ge hcap)).1
        rw [hok] at h
        simp at h

/-- Filtering by webinar id distributes over append. -/
theorem findByWebinarId_append (a b : List Participation) (eid : String) :
    findByWebinarId (a ++ b) eid = findByWebinarId a eid ++ findByWebinarId b eid := by
  simp [findByWebinarId, List.filter_append]

/-- A successful booking raises the committed count for its event by one. -/
theorem countFor_execute_success (s : SysState) (eid : String) (u : User) (w : Webinar)
    (hw : findWebinarById s.webinars eid = some w)
    (hd : (findByWebinarId s.participations eid).any (fun p => p.userId == u.id) = false)
    (hcap : ((findByWebinarId s.participations eid).length : Int) < w.seats) :
    countFor (BookSeat.execute s eid u).snd eid = countFor s eid + 1 := by
  have hp := (execute_success_parts s eid u w hw hd hcap).2.1
  unfold countFor
  rw [hp, findByWebinarId_append]
  simp [findByWebinarId]

/-- The duplicate check fails exactly when the store holds no registration
for the pair. -/
theorem any_eq_false_iff_no_pair (s : SysState) (eid uid : String) :
    (findByWebinarId s.participations eid).any (fun p => p.userId == uid) = false ↔
      countPair s eid uid = 0 := by
  unfold countPair
  rw [List.length_eq_zero, List.filter_eq_nil_iff]
  simp [List.any_eq_false]

/-- A successful booking leaves exactly one registration for its pair. -/
theorem countPair_execute_success (s : SysState) (eid : String) (u : User) (w : Webinar)
    (hw : findWebinarById s.webinars eid = some w)
    (hd : (findByWebinarId s.participations eid).any (fun p => p.userId == u.id) = false)
    (hcap : ((findByWebinarId s.participations eid).length : Int) < w.seats) :
    countPair (BookSeat.execute s eid u).snd eid u.id = 1 := by
  have hp := (execute_success_parts s eid u w hw hd hcap).2.1
  have h0 : countPair s eid u.id = 0 := (any_eq_false_iff_no_pair s eid u.id).mp hd
  unfold countPair at h0 ⊢
  rw [hp, findByWebinarId_append, List.filter_append, List.length_append, h0]
  simp [findByWebinarId]

/-- One booking step preserves the at-most-one-per-pair bound. -/
theorem countPair_execute_le (s : SysState) (eid : String) (u : User)
    (h : countPair s eid u.id ≤ 1) :
    countPair (BookSeat.execute s eid u).snd eid u.id ≤ 1 := by
  cases hw : findWebinarById s.webinars eid with
  | none => rw [execute_not_found s eid u hw]; exact h
  | some w =>
    cases hd : (findByWebinarId s.participations eid).any (fun p => p.userId == u.id) with
    | true => rw [execute_duplicate s eid u w hw hd]; exact h
    | false =>
      by_cases hcap : ((findByWebinarId s.participations eid).length : Int) ≥ w.seats
      · rw [execute_full s eid u w hw hd hcap]; exact h
      · rw [countPair_execute_success s eid u w hw hd (lt_of_not_ge hcap)]

/-- C3: if the store holds at most one registration for (event, registrant),
any number of sequential repeats of the same booking keeps it at most one;
and whenever the event exists and the registrant already holds a
registration, the call fails with `AlreadyParticipatingException` and
returns the state untouched — no duplicate created, no seat consumed. -/
theorem c3_duplicate_invariant_sequential (s : SysState) (eid : String) (u : User) (n : Nat)
    (h : countPair s eid u.id ≤ 1) :
    countPair (iterateBook eid u n s) eid u.id ≤ 1 ∧
    (∀ w : Webinar, findWebinarById s.webinars eid = some w →
      1 ≤ countPair s eid u.id →
      BookSeat.execute s eid u = (Except.error JsError.alreadyParticipatingException, s)) := by
  constructor
  · induction n generalizing s with
    | zero => exact h
    | succ m ih =>
      rw [iterateBook]
      exact ih _ (countPair_execute_le s eid u h)
  · intro w hw h1
    have hd : (findByWebinarId s.participations eid).any (fun p => p.userId == u.id) = true := by
      by_contra hfalse
      have := (any_eq_false_iff_no_pair s eid u.id).mp (Bool.eq_false_iff.mpr hfalse ▸ rfl)
      omega
    exact execute_duplicate s eid u w hw hd

/-- Invariant for sequential bookings by fresh, pairwise-distinct
registrants: the committed count for the event reaches
`min seats (count + attempts)`. -/
theorem runSeq_capacity (eid : String) (w : Webinar) :
    ∀ (users : List User) (s : SysState),
      findWebinarById s.webinars eid = some w →
      (countFor s eid : Int) ≤ w.seats →
      (∀ u ∈ users, ∀ p ∈ findByWebinarId s.participations eid, p.userId ≠ u.id) →
      users.Pairwise (fun a b => a.id ≠ b.id) →
      (countFor (runSeq eid users s) eid : Int) =
        min w.seats (countFor s eid + users.length) := by
  intro users
  induction users with
  | nil =>
    intro s _ hle _ _
    simp [runSeq]
    omega
  | cons u rest ih =>
    intro s hw hle hfresh hdist
    have hd : (findByWebinarId s.participations eid).any (fun p => p.userId == u.id) = false := by
      rw [List.any_eq_false]
      intro p hp
      simp only [beq_iff_eq]
      exact hfresh u (List.mem_cons_self u rest) p hp
    have hstep : runSeq eid (u :: rest) s = runSeq eid rest (BookSeat.execute s eid u).snd := by
      simp [runSeq]
    by_cases hcap : ((findByWebinarId s.participations eid).length : Int) ≥ w.seats
    · -- the event is already full: the call fails and changes nothing
      rw [hstep, execute_full s eid u w hw hd hcap]
      rw [ih s hw hle (fun v hv => hfresh v (List.mem_cons_of_mem u hv)) hdist.of_cons]
      have : (countFor s eid : Int) = w.seats := le_antisymm hle hcap
      simp [List.length_cons]
      omega
    · -- a seat is free: the call commits one more registration
      have hlt := lt_of_not_ge hcap
      have hparts := execute_success_parts s eid u w hw hd hlt
      have hw2 : findWebinarById (BookSeat.execute s eid u).snd.webinars eid = some w := by
        rw [hparts.2.2.1]; exact hw
      have hcount : countFor (BookSeat.execute s eid u).snd eid = countFor s eid + 1 :=
        countFor_execute_success s eid u w hw hd hlt
      have hle2 : (countFor (BookSeat.execute s eid u).snd eid : Int) ≤ w.seats := by
        rw [hcount]
        unfold countFor
        push_cast
        omega
      have hfresh2 : ∀ v ∈ rest, ∀ p ∈ findByWebinarId (BookSeat.execute s eid u).snd.participations eid,
          p.userId ≠ v.id := by
        intro v hv p hp
        rw [hparts.2.1, findByWebinarId_append] at hp
        rcases List.mem_append.mp hp with hpold | hpnew
        · exact hfresh v (List.mem_cons_of_mem u hv) p hpold
        · have hpu : p.userId = u.id := by
            simp [findByWebinarId] at hpnew
            rw [hpnew]
          rw [hpu]
          exact (List.pairwise_cons.mp hdist).1 v hv
      have hcf : countFor s eid = (findByWebinarId s.participations eid).length := rfl
      rw [hstep, ih _ hw2 hle2 hfresh2 hdist.of_cons, hcount, hcf]
      simp [List.length_cons]
      congr 1
      ring

/-- C1: for an event with capacity `seats ≥ 0` and an initially empty
registration store for that event, a sequential run of bookings by
pairwise-distinct registrants commits exactly
`min seats (number of registrants attempted)` registrations, and in
particular never exceeds `seats`. -/
theorem c1_capacity_invariant_sequential (s : SysState) (eid : String) (w : Webinar)
    (users : List User)
    (hw : findWebinarById s.webinars eid = some w)
    (hseats : 0 ≤ w.seats)
    (h0 : countFor s eid = 0)
    (hdist : users.Pairwise (fun a b => a.id ≠ b.id)) :
    (countFor (runSeq eid users s) eid : Int) = min w.seats users.length ∧
    (countFor (runSeq eid users s) eid : Int) ≤ w.seats := by
  have hempty : findByWebinarId s.participations eid = [] := by
    have := h0
    unfold countFor at this
    exact List.length_eq_zero.mp this
  have h := runSeq_capacity eid w users s hw (by rw [h0]; exact_mod_cast hseats)
    (fun v _ p hp => by rw [hempty] at hp; cases hp) hdist
  rw [h0] at h
  constructor
  · rw [h]; norm_num
  · rw [h]; omega

/-- Witness for C1: three distinct registrants on the two-seat webinar. -/
theorem c1_capacity_invariant_sequential_witness :
    (countFor (runSeq "webinar-1" demoUsers demoState) "webinar-1" : Int) =
        min demoWebinar.seats (demoUsers.length : Int) ∧
    (countFor (runSeq "webinar-1" demoUsers demoState) "webinar-1" : Int) ≤
      demoWebinar.seats :=
  c1_capacity_invariant_sequential demoState "webinar-1" demoWebinar demoUsers rfl
    (by decide) rfl (by decide)

/-- Witness for C3: `user-1` repeats its booking three more times. -/
theorem c3_duplicate_invariant_sequential_witness :
    countPair (iterateBook "webinar-1" demoUser 3 demoStateRegistered) "webinar-1"
        demoUser.id ≤ 1 ∧
    (∀ w : Webinar, findWebinarById demoStateRegistered.webinars "webinar-1" = some w →
      1 ≤ countPair demoStateRegistered "webinar-1" demoUser.id →
      BookSeat.execute demoStateRegistered "webinar-1" demoUser =
        (Except.error JsError.alreadyParticipatingException, demoStateRegistered)) :=
  c3_duplicate_invariant_sequential demoStateRegistered "webinar-1" demoUser 3 (by decide)

/-! Claim theorems on the error paths and frame conditions. -/

/-- C4: every failure of `BookSeat.execute` — missing webinar, duplicate
registrant, or full webinar — leaves the whole system state (including the
participation store and the sent-mail log) exactly as it was. -/
theorem c4_failure_has_no_side_effects (s : SysState) (eid : String) (u : User) (e : JsError)
    (h : (BookSeat.execute s eid u).fst = Except.error e) :
    (BookSeat.execute s eid u).snd = s :=
  execute_failure_frame s eid u e h

/-- Witness for C4 at the missing-event input. -/
theorem c4_failure_has_no_side_effects_witness :
    (BookSeat.execute emptyState "webinar-1" demoUser).snd = emptyState :=
  c4_failure_has_no_side_effects emptyState "webinar-1" demoUser
    (JsError.genericError "Webinar not found") rfl

/-- C5: with the webinar present, `BookSeat.execute` fails with
`AlreadyParticipatingException` exactly when some stored participation of
that webinar carries the caller's user id (this check runs before the
capacity check, so it wins even at a full webinar); when no such
participation exists, it fails with `NoSeatsAvailableException` exactly
when the stored participation count is at least `seats`. -/
theorem c5_duplicate_check_precedes_capacity_check (s : SysState) (eid : String)
    (u : User) (w : Webinar)
    (hw : findWebinarById s.webinars eid = some w) :
    ((BookSeat.execute s eid u).fst = Except.error JsError.alreadyParticipatingException ↔
      (findByWebinarId s.participations eid).any (fun p => p.userId == u.id) = true) ∧
    ((findByWebinarId s.participations eid).any (fun p => p.userId == u.id) = false →
      ((BookSeat.execute s eid u).fst = Except.error JsError.noSeatsAvailableException ↔
        ((findByWebinarId s.participations eid).length : Int) ≥ w.seats)) := by
  cases hd : (findByWebinarId s.participations eid).any (fun p => p.userId == u.id) with
  | true => simp [execute_duplicate s eid u w hw hd]
  | false =>
    by_cases hcap : ((findByWebinarId s.participations eid).length : Int) ≥ w.seats
    · simp [execute_full s eid u w hw hd hcap, hcap]
    · have hok := (execute_success_parts s eid u w hw hd (lt_of_not_ge hcap)).1
      simp [hok, hcap]

/-- Witness for C5: `user-1` re-books the webinar it already occupies. -/
theorem c5_duplicate_check_precedes_capacity_check_witness :
    ((BookSeat.execute demoStateRegistered "webinar-1" demoUser).fst =
        Except.error JsError.alreadyParticipatingException ↔
      (findByWebinarId demoStateRegistered.participations "webinar-1").any
        (fun p => p.userId == demoUser.id) = true) ∧
    ((findByWebinarId demoStateRegistered.participations "webinar-1").any
        (fun p => p.userId == demoUser.id) = false →
      ((BookSeat.execute demoStateRegistered "webinar-1" demoUser).fst =
          Except.error JsError.noSeatsAvailableException ↔
        ((findByWebinarId demoStateRegistered.participations "webinar-1").length : Int) ≥
          demoWebinar.seats)) :=
  c5_duplicate_check_precedes_capacity_check demoStateRegistered "webinar-1" demoUser
    demoWebinar rfl

/-- C6: when no stored webinar has the requested id, `BookSeat.execute`
fails with the thrown `Error('Webinar not found')` value, leaves the state
untouched, and that error value is distinct from the two other failure
values, so the caller can tell the three failures apart. -/
theorem c6_event_not_found_distinguishable (s : SysState) (eid : String) (u : User)
    (h : findWebinarById s.webinars eid = none) :
    BookSeat.execute s eid u = (Except.error (JsError.genericError "Webinar not found"), s) ∧
    JsError.genericError "Webinar not found" ≠ JsError.noSeatsAvailableException ∧
    JsError.genericError "Webinar not found" ≠ JsError.alreadyParticipatingException :=
  ⟨execute_not_found s eid u h, by decide, by decide⟩

/-- Witness for C6 at the test suite's missing-event input. -/
theorem c6_event_not_found_distinguishable_witness :
    BookSeat.execute demoState "non-existent-id" demoUser =
      (Except.error (JsError.genericError "Webinar not found"), demoState) ∧
    JsError.genericError "Webinar not found" ≠ JsError.noSeatsAvailableException ∧
    JsError.genericError "Webinar not found" ≠ JsError.alreadyParticipatingException :=
  c6_event_not_found_distinguishable demoState "non-existent-id" demoUser rfl

/-- C7: on the successful path the booking commits regardless of whether
the organizer resolves; no email is recorded when the organizer is absent,
and exactly one email — built by `notificationEmail` from the event title
and the pre-registration count (`seats - count - 1` remaining) — is
recorded when the organizer resolves. -/
theorem c7_notification_iff_owner_resolves (s : SysState) (eid : String) (u : User)
    (w : Webinar)
    (hw : findWebinarById s.webinars eid = some w)
    (hd : (findByWebinarId s.participations eid).any (fun p => p.userId == u.id) = false)
    (hcap : ((findByWebinarId s.participations eid).length : Int) < w.seats) :
    (BookSeat.execute s eid u).fst = Except.ok () ∧
    (BookSeat.execute s eid u).snd.participations = s.participations ++ [⟨u.id, eid⟩] ∧
    (findUserById s.users w.organizerId = none →
      (BookSeat.execute s eid u).snd.sentEmails = s.sentEmails) ∧
    (∀ org : User, findUserById s.users w.organizerId = some org →
      (BookSeat.execute s eid u).snd.sentEmails =
        s.sentEmails ++
          [notificationEmail org w (findByWebinarId s.participations eid).length]) :=
  ⟨(execute_success_parts s eid u w hw hd hcap).1,
   (execute_success_parts s eid u w hw hd hcap).2.1,
   fun horg => execute_success_email_none s eid u w hw hd hcap horg,
   fun org horg => execute_success_email_some s eid u w org hw hd hcap horg⟩

/-- Witness for C7 at the test suite's happy-path input. -/
theorem c7_notification_iff_owner_resolves_witness :
    (BookSeat.execute demoState "webinar-1" demoUser).fst = Except.ok () ∧
    (BookSeat.execute demoState "webinar-1" demoUser).snd.participations =
      demoState.participations ++ [⟨demoUser.id, "webinar-1"⟩] ∧
    (findUserById demoState.users demoWebinar.organizerId = none →
      (BookSeat.execute demoState "webinar-1" demoUser).snd.sentEmails =
        demoState.sentEmails) ∧
    (∀ org : User, findUserById demoState.users demoWebinar.organizerId = some org →
      (BookSeat.execute demoState "webinar-1" demoUser).snd.sentEmails =
        demoState.sentEmails ++
          [notificationEmail org demoWebinar
            (findByWebinarId demoState.participations "webinar-1").length]) :=
  c7_notification_iff_owner_resolves demoState "webinar-1" demoUser demoWebinar
    rfl rfl (by decide)

/-- C8: `BookSeat.execute` never writes the webinar store on any path, so
every stored event — its seats, title, owner id and cached participants
list — is unchanged by a booking, successful or not. -/
theorem c8_event_record_never_modified (s : SysState) (eid : String) (u : User) :
    (BookSeat.execute s eid u).snd.webinars = s.webinars :=
  (execute_frame s eid u).1

/-- C9: `hasAvailableSeats` is true exactly when the cached participant
count is strictly below `seats`. -/
theorem c9_hasAvailableSeats_iff_lt_seats (w : Webinar) :
    w.hasAvailableSeats = true ↔ (w.participantsList.length : Int) < w.seats := by
  simp [Webinar.hasAvailableSeats]

/-- C10: `addParticipant` appends unconditionally — no duplicate or
capacity guard — so the cached list always grows by one and
`getRemainingSeats` always drops by one, even below zero. -/
theorem c10_addParticipant_appends_unconditionally (w : Webinar) (uid : String) :
    (w.addParticipant uid).participants = some (w.participantsList ++ [uid]) ∧
    (w.addParticipant uid).participantsList.length = w.participantsList.length + 1 ∧
    (w.addParticipant uid).getRemainingSeats = w.getRemainingSeats - 1 := by
  refine ⟨rfl, ?_, ?_⟩
  · simp [Webinar.addParticipant, Webinar.participantsList]
  · simp [Webinar.addParticipant, Webinar.participantsList, Webinar.getRemainingSeats]
    ring

/-- Sanity of the interleaving model: an invocation run alone, segment by
segment, reaches the same final stores as the atomic `BookSeat.execute`,
and finishes ok exactly when `execute` returns ok. -/
theorem soloSteps_refines_execute (s : SysState) (eid : String) (u : User) :
    (soloSteps 6 s { webinarId := eid, user := u, pc := .ready }).snd =
      (BookSeat.execute s eid u).snd ∧
    ((soloSteps 6 s { webinarId := eid, user := u, pc := .ready }).fst.pc =
        BookingPC.finishedOk ↔
      (BookSeat.execute s eid u).fst = Except.ok ()) := by
  cases hw : findWebinarById s.webinars eid with
  | none => simp [soloSteps, bookingStep, BookSeat.execute, hw]
  | some w =>
    cases hd : (findByWebinarId s.participations eid).any (fun p => p.userId == u.id) with
    | true => simp [soloSteps, bookingStep, BookSeat.execute, hw, hd]
    | false =>
      by_cases hcap : ((findByWebinarId s.participations eid).length : Int) ≥ w.seats
      · simp [soloSteps, bookingStep, BookSeat.execute, hw, hd, hcap]
      · cases horg : findUserById s.users w.organizerId with
        | none => simp [soloSteps, bookingStep, BookSeat.execute, hw, hd, hcap, horg]
        | some org => simp [soloSteps, bookingStep, BookSeat.execute, hw, hd, hcap, horg]

/-- C2 is refuted by the code: under the alternating interleaving of two
concurrent `BookSeat.execute` invocations for a one-seat webinar — both
read the participation list before either saves — both invocations finish
successfully and the store ends with two committed registrations, exceeding
`seats = 1`. -/
theorem c2_concurrent_capacity_violated :
    oneSeatWebinar.seats = 1 ∧
    (runRace raceInit raceSchedule).taskA.pc = BookingPC.finishedOk ∧
    (runRace raceInit raceSchedule).taskB.pc = BookingPC.finishedOk ∧
    countFor (runRace raceInit raceSchedule).shared "webinar-1" = 2 :=
  ⟨rfl, rfl, rfl, rfl⟩

